import Mathlib

/-!
# Verification of the TRAVEL_PLANNER workflow core and cache subsystem

This file is a shallow embedding, in Lean 4, of the workflow execution engine
and the TTL-backed cache subsystem of the TRAVEL_PLANNER repository, together
with theorems settling the specification claims about them.

Embedding conventions:
* Python dictionaries holding JSON-serializable data are modelled by the
  inductive type `Value`; `json.dumps(.., sort_keys=True)` is modelled by
  `dumps`.
* SQLite tables are modelled as lists of row structures; the `PRIMARY KEY`
  constraint appears as a `Nodup` hypothesis on the key column where needed.
* Timestamps are integers (seconds); `timedelta(hours=h)` is `h * 3600`.
* `md5` is modelled as an arbitrary function of the hashed string: every claim
  about cache keys only uses that the hash is a deterministic function of its
  input text.
* Python exceptions are modelled with `Except String`: a function that may
  raise returns `Except.error msg` on the raising path.
* Network calls are modelled by an oracle `attempts : Nat → NetResult` giving
  the outcome of the n-th attempted HTTP request of an operation.
-/

/-- JSON-like values, as produced by the Python code's dict/list/str/int data
(`params`, `response_data`, workflow payloads). -/
inductive Value where
  | null : Value
  | bool : Bool → Value
  | int : Int → Value
  | str : String → Value
  | arr : List Value → Value
  | obj : List (String × Value) → Value

/-- JSON string escaping (backslash and double quote), as in `json.dumps`. -/
def escapeString (s : String) : String :=
  s.foldl (fun acc c =>
    if c = '\\' then acc ++ "\\\\"
    else if c = '\x22' then acc ++ "\\\x22"
    else acc ++ c.toString) ""

/-- Ordering used to model `sort_keys=True` in `json.dumps`: pairs compared by
their key string. -/
def keyLE (a b : String × String) : Bool := decide (a.1 ≤ b.1)

mutual
/-- `json.dumps(v, sort_keys=True)` from `api_collector._generate_cache_key`:
object keys are emitted in sorted order, with the default separators
`", "` and `": "`. -/
def dumps : Value → String
  | .null => "null"
  | .bool b => if b then "true" else "false"
  | .int n => toString n
  | .str s => "\x22" ++ escapeString s ++ "\x22"
  | .arr vs => "[" ++ String.intercalate ", " (dumpsList vs) ++ "]"
  | .obj kvs => "\x7b" ++ String.intercalate ", "
      (((dumpsPairs kvs).mergeSort keyLE).map
        (fun kv => "\x22" ++ escapeString kv.1 ++ "\x22" ++ ": " ++ kv.2)) ++ "\x7d"

/-- Serialize every element of a JSON array. -/
def dumpsList : List Value → List String
  | [] => []
  | v :: vs => dumps v :: dumpsList vs

/-- Serialize the value of every key/value pair of a JSON object. -/
def dumpsPairs : List (String × Value) → List (String × String)
  | [] => []
  | kv :: kvs => (kv.1, dumps kv.2) :: dumpsPairs kvs
end

/-- `APICollector._generate_cache_key`: the cache key is
`md5(f"{api_name}:{endpoint}:{json.dumps(params, sort_keys=True)}")`.
The `md5` hexdigest is modelled by the function parameter `h`. -/
def generate_cache_key (h : String → String) (api_name endpoint : String)
    (params : List (String × Value)) : String :=
  h (api_name ++ ":" ++ endpoint ++ ":" ++ dumps (.obj params))

/-! ## Cache Store (`database/dual_db_manager.py`, cache.db)

Rows of the `api_cache` and `web_cache` tables. The `PRIMARY KEY` on
`cache_key` is carried as a `Nodup` hypothesis where a theorem needs it. -/

/-- A row of the `api_cache` table of cache.db
(`cache_key TEXT PRIMARY KEY, api_name, endpoint, params, response_data,
created_at, expires_at, hit_count INTEGER DEFAULT 0`). `response_data` and
`params` hold serialized JSON text. -/
structure CacheEntry where
  cache_key : String
  api_name : String
  endpoint : String
  params : String
  response_data : String
  created_at : Int
  expires_at : Int
  hit_count : Int
deriving DecidableEq, Repr

/-- A row of the `web_cache` table of cache.db. -/
structure WebCacheEntry where
  cache_key : String
  url : String
  content : String
  created_at : Int
  expires_at : Int
  hit_count : Int
deriving DecidableEq, Repr

/-- `DualDatabaseManager.get_api_cache`: `SELECT response_data, expires_at FROM
api_cache WHERE cache_key = ? AND expires_at > now()`; on a hit, `UPDATE
api_cache SET hit_count = hit_count + 1 WHERE cache_key = ?` and return the
row's `response_data`; on a miss return `None`. Returns the result together
with the table after the update. -/
def get_api_cache (store : List CacheEntry) (cache_key : String) (now : Int) :
    Option String × List CacheEntry :=
  match store.find? (fun e => e.cache_key == cache_key && now < e.expires_at) with
  | some e => (some e.response_data,
      store.map (fun e' => if e'.cache_key == cache_key
        then { e' with hit_count := e'.hit_count + 1 } else e'))
  | none => (none, store)

/-- `DualDatabaseManager.set_api_cache`: `INSERT OR REPLACE INTO api_cache`
with `expires_at = now() + timedelta(hours=cache_hours)` and `created_at =
now()`; `hit_count` is not in the column list, so a replace resets it to its
schema default 0. Modelled as removing any row with the same primary key and
inserting the fresh row. -/
def set_api_cache (store : List CacheEntry)
    (cache_key api_name endpoint params response_data : String)
    (now cache_hours : Int) : List CacheEntry :=
  { cache_key := cache_key, api_name := api_name, endpoint := endpoint,
    params := params, response_data := response_data, created_at := now,
    expires_at := now + cache_hours * 3600, hit_count := 0 } ::
    store.filter (fun e => !(e.cache_key == cache_key))

/-- `DualDatabaseManager.clear_expired_cache`: `DELETE FROM api_cache WHERE
expires_at < now()` and `DELETE FROM web_cache WHERE expires_at < now()`;
returns the two tables after deletion together with
`(api_cache_deleted, web_cache_deleted, total_deleted)` from `cursor.rowcount`. -/
def clear_expired_cache (api : List CacheEntry) (web : List WebCacheEntry)
    (now : Int) :
    (List CacheEntry × List WebCacheEntry) × (Int × Int × Int) :=
  let api' := api.filter (fun e => !(decide (e.expires_at < now)))
  let web' := web.filter (fun e => !(decide (e.expires_at < now)))
  let api_deleted : Int := (api.length - api'.length : Nat)
  let web_deleted : Int := (web.length - web'.length : Nat)
  ((api', web'), (api_deleted, web_deleted, api_deleted + web_deleted))



/-! ## Collaborator Adapters (`data_collection/api_collector.py`,
`data_collection/web_scraper.py`)

`APICollector` keeps its own sqlite cache (`api_cache.db`) whose table has no
`params` and no `hit_count` column; `WebScraper` keeps `web_scraper_cache.db`.
Storage I/O failures of sqlite are modelled by the `readFail`/`writeFail`
flags: a raised `sqlite3.Error` becomes `Except.error`. -/

/-- Outcome of one HTTP request attempt (`requests.get`): a successful
response body, or a `requests.exceptions.RequestException`. -/
inductive NetResult where
  | ok : String → NetResult
  | requestError : String → NetResult
deriving DecidableEq, Repr

/-- A row of `APICollector`'s `api_cache` table in `api_cache.db`
(`cache_key TEXT PRIMARY KEY, api_name, endpoint, response_data, created_at,
expires_at`). -/
structure ACEntry where
  cache_key : String
  api_name : String
  endpoint : String
  response_data : String
  created_at : Int
  expires_at : Int
deriving DecidableEq, Repr

/-- `APICollector._get_cached_response`: `SELECT response_data, expires_at
FROM api_cache WHERE cache_key = ? AND expires_at > now()`. The method
contains no try/except: a storage I/O failure (`readFail`) raises and the
exception propagates to the caller. -/
def get_cached_response (readFail : Bool) (store : List ACEntry)
    (cache_key : String) (now : Int) : Except String (Option String) :=
  if readFail then .error "sqlite I/O error"
  else
    match store.find? (fun e =>
        e.cache_key == cache_key && now < e.expires_at) with
    | some e => .ok (some e.response_data)
    | none => .ok none

/-- `APICollector._cache_response`: `INSERT OR REPLACE INTO api_cache` with
`expires_at = now() + timedelta(hours=cache_duration_hours)`. No try/except:
a storage I/O failure (`writeFail`) raises. -/
def cache_response (writeFail : Bool) (store : List ACEntry)
    (cache_key api_name endpoint response_data : String)
    (now cache_duration_hours : Int) : Except String (List ACEntry) :=
  if writeFail then .error "sqlite I/O error"
  else .ok
    ({ cache_key := cache_key, api_name := api_name,
       endpoint := endpoint, response_data := response_data,
       created_at := now,
       expires_at := now + cache_duration_hours * 3600 } ::
      store.filter (fun e => !(e.cache_key == cache_key)))

/-- `APICollector._make_api_request`. Control flow exactly as in the source:
generate the cache key; check the cache (outside any try/except, so a raise
there propagates); `_rate_limit_check` always returns `True` (it only sleeps,
which is not modelled); return `None` when the api key is missing; otherwise
perform exactly ONE `requests.get` — `attempts 0`; on success, write the
cache inside the `try:` block whose `except` clause catches only
`requests.exceptions.RequestException`, so a sqlite failure there still
propagates; on a `RequestException` print and return `None`. There is no
retry loop in this adapter. (The source also injects the api key into
`params` after the cache key has been generated; this mutation does not
affect anything modelled here.) -/
def make_api_request (readFail writeFail : Bool) (store : List ACEntry)
    (api_key : Option String) (attempts : Nat → NetResult)
    (h : String → String) (api_name endpoint : String)
    (params : List (String × Value)) (now cache_duration_hours : Int) :
    Except String (Option String × List ACEntry) :=
  let cache_key := generate_cache_key h api_name endpoint params
  match get_cached_response readFail store cache_key now with
  | .error e => .error e
  | .ok (some cached) => .ok (some cached, store)
  | .ok none =>
    match api_key with
    | none => .ok (none, store)
    | some _ =>
      match attempts 0 with
      | .ok response_data =>
        match cache_response writeFail store cache_key api_name endpoint
            response_data now cache_duration_hours with
        | .ok store' => .ok (some response_data, store')
        | .error e => .error e
      | .requestError _ => .ok (none, store)

/-- A row of `WebScraper`'s `web_cache` table in `web_scraper_cache.db`. -/
structure WEntry where
  cache_key : String
  url : String
  content : String
  created_at : Int
  expires_at : Int
deriving DecidableEq, Repr

/-- `WebScraper._get_cached_content`: `SELECT content FROM web_cache WHERE
cache_key = ? AND expires_at > now()`. -/
def get_cached_content (store : List WEntry) (cache_key : String)
    (now : Int) : Option String :=
  match store.find? (fun e =>
      e.cache_key == cache_key && now < e.expires_at) with
  | some e => some e.content
  | none => none

/-- `WebScraper._cache_content`: `INSERT OR REPLACE INTO web_cache` with
`expires_at = now() + timedelta(hours=cache_duration_hours)`. -/
def cache_content (store : List WEntry) (cache_key url content : String)
    (now cache_duration_hours : Int) : List WEntry :=
  { cache_key := cache_key, url := url, content := content,
    created_at := now, expires_at := now + cache_duration_hours * 3600 } ::
    store.filter (fun e => !(e.cache_key == cache_key))

/-- `WebScraper.max_retries = 3`. -/
def web_max_retries : Nat := 3

/-- `WebScraper._make_request(url, retries, cache_duration_hours)`: check the
cache (the key is `md5(url)`, modelled by `h url`); on a miss perform the
request for this recursion depth — `attempts retries`; on success cache and
return the text; on a `RequestException`, if `retries < max_retries` sleep
`2 ** retries` seconds (exponential backoff, real time not modelled) and
recurse with `retries + 1`, else return `None`. -/
def make_request (attempts : Nat → NetResult) (h : String → String)
    (store : List WEntry) (url : String) (now cache_duration_hours : Int)
    (retries : Nat) : Option String × List WEntry :=
  let cache_key := h url
  match get_cached_content store cache_key now with
  | some cached => (some cached, store)
  | none =>
    match attempts retries with
    | .ok text =>
        (some text, cache_content store cache_key url text now
          cache_duration_hours)
    | .requestError _ =>
      if hr : retries < web_max_retries then
        make_request attempts h store url now cache_duration_hours
          (retries + 1)
      else (none, store)
termination_by web_max_retries - retries
decreasing_by
  simp only [web_max_retries] at *
  omega



/-! ## Workflow graph and stage nodes
(`multi_agent_system/langgraph_workflow.py`, `build_travel_workflow_graph`)

The `TravelState` TypedDict (`total=False`) is modelled as a structure with
`Option` fields for the payloads; `steps_completed`/`errors` are read with
`state.get(.., [])` throughout the source, so their absence is observationally
the empty list and they are modelled as plain lists. Each node's business
logic calls collaborators (adapters, ML scoring) that the spec treats as
opaque; a node body is therefore modelled by its outcome
`body : Except String Value` — `.ok v` is the computed payload dict, and
`.error e` models the Python body raising an exception with message `e`. -/

/-- The shared workflow state of `build_travel_workflow_graph`'s
`TravelState` TypedDict. -/
structure TravelState where
  destination : Option String
  budget : Option Int
  days : Option Int
  travelers : Option Int
  collected_data : Option Value
  scraped_data : Option Value
  processed_data : Option Value
  recommendations : Option Value
  sentiment_analysis : Option Value
  similarity_results : Option Value
  price_predictions : Option Value
  travel_plan : Option Value
  research_insights : Option Value
  analytics_results : Option Value
  steps_completed : List String
  errors : List String

/-- The state a run starts from (all payload fields absent, empty tracking
lists). -/
def empty_travel_state : TravelState :=
  { destination := none, budget := none, days := none, travelers := none,
    collected_data := none, scraped_data := none, processed_data := none,
    recommendations := none, sentiment_analysis := none,
    similarity_results := none, price_predictions := none,
    travel_plan := none, research_insights := none,
    analytics_results := none, steps_completed := [], errors := [] }

/-- `_mark_step(step_name)`: `steps = list(state.get("steps_completed", []))`,
`steps.append(step_name)`, `state["steps_completed"] = steps`. -/
def mark_step (step_name : String) (s : TravelState) : TravelState :=
  { s with steps_completed := s.steps_completed ++ [step_name] }

/-- The `except Exception` branch shared (verbatim) by all ten nodes:
`errors = list(state.get("errors", []))`, `errors.append(msg)`,
`state["errors"] = errors`, return the state without marking the step. -/
def append_error (msg : String) (s : TravelState) : TravelState :=
  { s with errors := s.errors ++ [msg] }

/-- `_api_collector_node`: on success store `collected_data` and mark
`"api_collector"`; on an exception append `f"API Collector error: {e}"`. -/
def api_collector_node (body : Except String Value) (s : TravelState) :
    TravelState :=
  match body with
  | .ok v => mark_step "api_collector" { s with collected_data := some v }
  | .error e => append_error ("API Collector error: " ++ e) s

/-- `_web_scraper_node`: on success store `scraped_data` and mark
`"web_scraper"`; on an exception append `f"Web Scraper error: {e}"`. -/
def web_scraper_node (body : Except String Value) (s : TravelState) :
    TravelState :=
  match body with
  | .ok v => mark_step "web_scraper" { s with scraped_data := some v }
  | .error e => append_error ("Web Scraper error: " ++ e) s

/-- `_data_processor_node`: on success store `processed_data` and mark
`"data_processor"`; on an exception append `f"Data Processor error: {e}"`. -/
def data_processor_node (body : Except String Value) (s : TravelState) :
    TravelState :=
  match body with
  | .ok v => mark_step "data_processor" { s with processed_data := some v }
  | .error e => append_error ("Data Processor error: " ++ e) s

/-- `_recommendation_node`: on success store `recommendations` and mark
`"recommendation"`; on an exception append `f"Recommendation error: {e}"`. -/
def recommendation_node (body : Except String Value) (s : TravelState) :
    TravelState :=
  match body with
  | .ok v => mark_step "recommendation" { s with recommendations := some v }
  | .error e => append_error ("Recommendation error: " ++ e) s

/-- `_sentiment_analyzer_node`: on success store `sentiment_analysis` and mark
`"sentiment_analyzer"`; on an exception append
`f"Sentiment Analyzer error: {e}"`. -/
def sentiment_analyzer_node (body : Except String Value) (s : TravelState) :
    TravelState :=
  match body with
  | .ok v =>
      mark_step "sentiment_analyzer" { s with sentiment_analysis := some v }
  | .error e => append_error ("Sentiment Analyzer error: " ++ e) s

/-- `_similarity_engine_node`: on success store `similarity_results` and mark
`"similarity_engine"`; on an exception append
`f"Similarity Engine error: {e}"`. -/
def similarity_engine_node (body : Except String Value) (s : TravelState) :
    TravelState :=
  match body with
  | .ok v =>
      mark_step "similarity_engine" { s with similarity_results := some v }
  | .error e => append_error ("Similarity Engine error: " ++ e) s

/-- `_price_predictor_node`: on success store `price_predictions` and mark
`"price_predictor"`; on an exception append `f"Price Predictor error: {e}"`. -/
def price_predictor_node (body : Except String Value) (s : TravelState) :
    TravelState :=
  match body with
  | .ok v =>
      mark_step "price_predictor" { s with price_predictions := some v }
  | .error e => append_error ("Price Predictor error: " ++ e) s

/-- `_planner_node`: on success store `travel_plan` and mark `"planner"`;
on an exception append `f"Planner error: {e}"`. -/
def planner_node (body : Except String Value) (s : TravelState) :
    TravelState :=
  match body with
  | .ok v => mark_step "planner" { s with travel_plan := some v }
  | .error e => append_error ("Planner error: " ++ e) s

/-- `_researcher_node`: on success store `research_insights` and mark
`"researcher"`; on an exception append `f"Researcher error: {e}"`. -/
def researcher_node (body : Except String Value) (s : TravelState) :
    TravelState :=
  match body with
  | .ok v => mark_step "researcher" { s with research_insights := some v }
  | .error e => append_error ("Researcher error: " ++ e) s

/-- `_analytics_engine_node`: on success store `analytics_results` and mark
`"analytics_engine"`; on an exception append
`f"Analytics Engine error: {e}"`. -/
def analytics_engine_node (body : Except String Value) (s : TravelState) :
    TravelState :=
  match body with
  | .ok v =>
      mark_step "analytics_engine" { s with analytics_results := some v }
  | .error e => append_error ("Analytics Engine error: " ++ e) s

/-- The ten node names registered with `graph.add_node`, in registration
order (which is also a topological order of the edges below). -/
def workflow_stages : List String :=
  ["api_collector", "web_scraper", "data_processor", "recommendation",
   "sentiment_analyzer", "similarity_engine", "price_predictor", "planner",
   "researcher", "analytics_engine"]

/-- The edges added with `graph.add_edge` in `build_travel_workflow_graph`
(the final edge `analytics_engine -> END` is the sink marker and is not an
inter-stage edge). -/
def workflow_edges : List (String × String) :=
  [("api_collector", "web_scraper"),
   ("web_scraper", "data_processor"),
   ("data_processor", "recommendation"),
   ("data_processor", "sentiment_analyzer"),
   ("data_processor", "similarity_engine"),
   ("data_processor", "price_predictor"),
   ("recommendation", "planner"),
   ("sentiment_analyzer", "planner"),
   ("similarity_engine", "planner"),
   ("price_predictor", "planner"),
   ("planner", "researcher"),
   ("researcher", "analytics_engine")]

/-- `graph.set_entry_point("api_collector")`. -/
def entry_point : String := "api_collector"

/-- The terminal sink: `graph.add_edge("analytics_engine", END)`. -/
def sink_stage : String := "analytics_engine"

/-- The upstream set of a stage: the sources of its incoming edges. -/
def upstream (n : String) : List String :=
  (workflow_edges.filter (fun e => e.2 == n)).map (fun e => e.1)

/-- The error-message tag each node's `except` branch prepends to the
exception text. -/
def stage_error_tag : String → String
  | "api_collector" => "API Collector error: "
  | "web_scraper" => "Web Scraper error: "
  | "data_processor" => "Data Processor error: "
  | "recommendation" => "Recommendation error: "
  | "sentiment_analyzer" => "Sentiment Analyzer error: "
  | "similarity_engine" => "Similarity Engine error: "
  | "price_predictor" => "Price Predictor error: "
  | "planner" => "Planner error: "
  | "researcher" => "Researcher error: "
  | "analytics_engine" => "Analytics Engine error: "
  | _ => ""

/-- The dispatch table built by the ten `graph.add_node(name, fn)` calls:
executing stage `name` applies its registered node function. An unregistered
name leaves the state unchanged (LangGraph would reject it structurally). -/
def apply_node (name : String) (body : Except String Value)
    (s : TravelState) : TravelState :=
  match name with
  | "api_collector" => api_collector_node body s
  | "web_scraper" => web_scraper_node body s
  | "data_processor" => data_processor_node body s
  | "recommendation" => recommendation_node body s
  | "sentiment_analyzer" => sentiment_analyzer_node body s
  | "similarity_engine" => similarity_engine_node body s
  | "price_predictor" => price_predictor_node body s
  | "planner" => planner_node body s
  | "researcher" => researcher_node body s
  | "analytics_engine" => analytics_engine_node body s
  | _ => s

/-- Modelled from the spec: the runtime executing the compiled graph is the
LangGraph library, which is an external dependency, not code under src/; per
spec §4.3 the Executor dispatches a stage only after every stage in its
`upstream` set has reached a terminal per-stage state (`Done` or `Errored`),
and never dispatches a stage twice. Because every node function above is
total (each catches its own exceptions), executing a stage makes it terminal
immediately, so a run is abstracted as the sequence of stage executions in
dispatch order: a schedule may append a stage only if it is registered, has
not yet executed, and all of its upstream stages have executed. -/
inductive ValidSchedule : List String → Prop where
  | nil : ValidSchedule []
  | snoc : ∀ {sched : List String} {n : String}, ValidSchedule sched →
      n ∈ workflow_stages → n ∉ sched →
      (∀ m ∈ upstream n, m ∈ sched) → ValidSchedule (sched ++ [n])

/-- A schedule of a run that executed every registered stage. -/
def CompleteSchedule (sched : List String) : Prop :=
  ∀ n ∈ workflow_stages, n ∈ sched

/-- Execute the scheduled stages over the shared state in dispatch order;
`bodies` gives each stage's (opaque) body outcome for this run. -/
def exec_schedule (bodies : String → Except String Value)
    (sched : List String) (s : TravelState) : TravelState :=
  sched.foldl (fun st n => apply_node n (bodies n) st) s

/-- Run-level states of spec §4.3. -/
inductive RunStatus where
  | Completed : RunStatus
  | Failed : RunStatus
deriving DecidableEq, Repr

/-- Modelled from the spec: run-level `Failed` is reserved for structural
errors only (missing stage, cycle detected at graph construction);
accumulated stage errors still yield `Completed`. Since every node function
catches its own exceptions, the only structural failure a schedule could
exhibit is dispatching a stage that is not registered in the graph. -/
def run_status (sched : List String) : RunStatus :=
  if sched.all (fun n => workflow_stages.contains n) then .Completed
  else .Failed



/-! ## Run Controller (`app.py`, `tao_ke_hoach_du_lich`) and
`utils/transport_calculator.py`

The controller validates the destination, parses the numeric inputs with
silent defaults, computes the transport cost, validates the budget and — only
then — invokes the workflow (`run_travel_workflow`). Modelled up to that
decision; the progress HTML yields and the RAG enrichment call (an opaque
collaborator assumed to succeed) are not modelled. Integer arithmetic models
Python's float arithmetic exactly for the values reachable here. -/

/-- Characters removed by Python `str.strip()`. -/
def python_space (c : Char) : Bool :=
  c == ' ' || c == '\t' || c == '\n' || c == '\r'

/-- Python `str.strip()`: remove leading and trailing whitespace. -/
def python_strip (s : String) : String :=
  String.mk
    (((s.data.dropWhile python_space).reverse.dropWhile
      python_space).reverse)

/-- Python `str.lower()`, restricted to ASCII case mapping (agrees with
Python on every input whose non-ASCII characters are already lowercase,
which covers all inputs of interest here). -/
def python_lower (s : String) : String := String.mk (s.data.map Char.toLower)

/-- Python `str.replace(c, "")`: remove every occurrence of the character. -/
def python_remove (c : Char) (s : String) : String :=
  String.mk (s.data.filter (fun x => !(x == c)))

/-- Parse a nonempty all-digit character list as a natural number. -/
def digitsToNat? (cs : List Char) : Option Nat :=
  match cs with
  | [] => none
  | _ =>
    cs.foldl
      (fun acc c =>
        match acc with
        | none => none
        | some n =>
          if c.isDigit then some (n * 10 + (c.toNat - '0'.toNat)) else none)
      (some 0)

/-- Python `int(s)` on an already-stripped string: an optional sign followed
by one or more digits, else a `ValueError` (`none`). (Python also accepts
underscore digit separators; no input of interest contains one.) -/
def python_int (s : String) : Option Int :=
  match s.data with
  | '-' :: rest => (digitsToNat? rest).map (fun n => -(n : Int))
  | '+' :: rest => (digitsToNat? rest).map (fun n => (n : Int))
  | cs => (digitsToNat? cs).map (fun n => (n : Int))

/-- `transport_calculator.CITY_ALIASES`. -/
def CITY_ALIASES : List (String × String) :=
  [("hanoi", "Hà Nội"), ("hà nội", "Hà Nội"), ("ha noi", "Hà Nội"),
   ("hn", "Hà Nội"),
   ("ho chi minh", "Hồ Chí Minh"), ("hồ chí minh", "Hồ Chí Minh"),
   ("tp hcm", "Hồ Chí Minh"), ("tp.hcm", "Hồ Chí Minh"),
   ("tphcm", "Hồ Chí Minh"), ("hcm", "Hồ Chí Minh"),
   ("sài gòn", "Hồ Chí Minh"), ("saigon", "Hồ Chí Minh"),
   ("sg", "Hồ Chí Minh"),
   ("da nang", "Đà Nẵng"), ("đà nẵng", "Đà Nẵng"), ("đn", "Đà Nẵng"),
   ("hue", "Huế"), ("huế", "Huế"),
   ("nha trang", "Nha Trang"),
   ("da lat", "Đà Lạt"), ("đà lạt", "Đà Lạt"), ("dalat", "Đà Lạt"),
   ("hoi an", "Hội An"), ("hội an", "Hội An"),
   ("phu quoc", "Phú Quốc"), ("phú quốc", "Phú Quốc"),
   ("can tho", "Cần Thơ"), ("cần thơ", "Cần Thơ"),
   ("vung tau", "Vũng Tàu"), ("vũng tàu", "Vũng Tàu"),
   ("dong nai", "Đồng Nai"), ("đồng nai", "Đồng Nai"),
   ("binh duong", "Binh Duong"), ("bình dương", "Binh Duong")]

/-- `normalize_city_name`: empty input returned as is; otherwise look up
`city.lower().strip()` in the alias table, falling back to `city.strip()`.
Python `str.lower` is modelled by `String.toLower` (ASCII case mapping; the
two agree on inputs whose non-ASCII characters are already lowercase, which
covers the alias keys). -/
def normalize_city_name (city : String) : String :=
  if city = "" then city
  else
    match CITY_ALIASES.find?
        (fun kv => kv.1 == python_strip (python_lower city)) with
    | some kv => kv.2
    | none => python_strip city

/-- `transport_calculator.DISTANCES`: road distances in km. -/
def DISTANCES : List ((String × String) × Int) :=
  [(("Hà Nội", "Hồ Chí Minh"), 1700), (("Hà Nội", "Đà Nẵng"), 770),
   (("Hà Nội", "Huế"), 660), (("Hà Nội", "Nha Trang"), 1280),
   (("Hà Nội", "Đà Lạt"), 1500), (("Hà Nội", "Hội An"), 790),
   (("Hà Nội", "Phú Quốc"), 1900), (("Hà Nội", "Cần Thơ"), 1780),
   (("Hà Nội", "Vũng Tàu"), 1670), (("Hà Nội", "Đồng Nai"), 1680),
   (("Hà Nội", "Binh Duong"), 1690),
   (("Hồ Chí Minh", "Đà Nẵng"), 970), (("Hồ Chí Minh", "Huế"), 1090),
   (("Hồ Chí Minh", "Nha Trang"), 450), (("Hồ Chí Minh", "Đà Lạt"), 310),
   (("Hồ Chí Minh", "Hội An"), 920), (("Hồ Chí Minh", "Phú Quốc"), 340),
   (("Hồ Chí Minh", "Cần Thơ"), 170), (("Hồ Chí Minh", "Vũng Tàu"), 125),
   (("Hồ Chí Minh", "Đồng Nai"), 50), (("Hồ Chí Minh", "Binh Duong"), 30),
   (("Đà Nẵng", "Huế"), 100), (("Đà Nẵng", "Hội An"), 30),
   (("Đà Nẵng", "Nha Trang"), 540)]

/-- `get_distance`: normalize both names; the same city gives 0; otherwise
try both orientations (`DISTANCES.get(key1) or DISTANCES.get(key2)` — no
table entry is 0, so Python's `or`-falsiness is plain Option choice). -/
def get_distance (city1 city2 : String) : Option Int :=
  let c1 := normalize_city_name city1
  let c2 := normalize_city_name city2
  if c1 = c2 then some 0
  else
    match DISTANCES.find? (fun kv => kv.1 == (c1, c2)) with
    | some kv => some kv.2
    | none =>
      match DISTANCES.find? (fun kv => kv.1 == (c2, c1)) with
      | some kv => some kv.2
      | none => none

/-- `calculate_transport_cost`, restricted to the `distance` and `min_cost`
fields of the returned dict — the only fields the run controller's control
flow depends on. Unknown pair: distance 0 and `min_cost` 0; same city: the
cheapest same-city option is the bus at `7000 * travelers * 4`; otherwise the
minimum `total_cost` over the available options: flight (`> 300` km,
`max(1000000, d*0.8*1000) * travelers`), train (`> 200` km,
`d*0.3*1000 * travelers`), coach (`> 50` km, `d*0.15*1000 * travelers`) and
car (`< 500` km, `d*0.2*1000*travelers`), or 0 when no option applies. -/
def calculate_transport_cost_min (from_city to_city : String)
    (travelers : Int) : Int × Int :=
  match get_distance from_city to_city with
  | none => (0, 0)
  | some d =>
    if d = 0 then (0, 7000 * travelers * 4)
    else
      let options : List Int :=
        (if d > 300 then [max 1000000 (d * 800) * travelers] else []) ++
        (if d > 200 then [d * 300 * travelers] else []) ++
        (if d > 50 then [d * 150 * travelers] else []) ++
        (if d < 500 then [d * 200 * travelers] else [])
      (d, match options with
          | [] => 0
          | x :: xs => xs.foldl min x)

/-- The breakdown fields of `validate_budget` that the controller consumes. -/
structure BudgetBreakdown where
  transport : Int
  remaining : Int
  per_day : Int
deriving DecidableEq, Repr

/-- Result of `validate_budget`: insufficient (with shortage) or valid. -/
inductive BudgetValidation where
  | insufficient : BudgetBreakdown → Int → BudgetValidation
  | valid : BudgetBreakdown → BudgetValidation
deriving DecidableEq, Repr

/-- `200000 + 150000 + 100000` VND: hotel + food + activities per day per
person in `validate_budget`. -/
def min_cost_per_day : Int := 200000 + 150000 + 100000

/-- `transport_calculator.validate_budget(total_budget, transport_cost, days,
travelers)`: `min_total_needed = transport_cost + min_cost_per_day * days *
travelers`; below it, the insufficient branch (whose `per_day` is
`remaining / days` when `remaining > 0`, else 0); otherwise the valid branch
with `per_day = remaining / days`. The Python float division raises
`ZeroDivisionError` when `days == 0` is reached on those paths — modelled as
`.error`. -/
def validate_budget (total_budget transport_cost days travelers : Int) :
    Except String BudgetValidation :=
  let remaining := total_budget - transport_cost
  let min_total_needed := transport_cost + min_cost_per_day * days * travelers
  if total_budget < min_total_needed then
    if remaining > 0 then
      if days = 0 then .error "division by zero"
      else .ok (.insufficient
        { transport := transport_cost, remaining := remaining,
          per_day := remaining / days } (min_total_needed - total_budget))
    else .ok (.insufficient
      { transport := transport_cost, remaining := remaining, per_day := 0 }
      (min_total_needed - total_budget))
  else
    if days = 0 then .error "division by zero"
    else .ok (.valid
      { transport := transport_cost, remaining := remaining,
        per_day := remaining / days })

/-- Budget parsing in `tao_ke_hoach_du_lich`:
`int(ngan_sach.replace(",", "").replace(".", "").strip()) if ngan_sach else
10000000`, any exception silently replaced by the default `10000000`. -/
def parse_budget (ngan_sach : String) : Int :=
  if ngan_sach = "" then 10000000
  else (python_int (python_strip
    (python_remove '.' (python_remove ',' ngan_sach)))).getD 10000000

/-- Day-count parsing: `int(so_ngay.strip()) if so_ngay else 3`, exceptions
silently replaced by the default 3. -/
def parse_days (so_ngay : String) : Int :=
  if so_ngay = "" then 3 else (python_int (python_strip so_ngay)).getD 3

/-- Traveler-count parsing: `int(so_nguoi.strip()) if so_nguoi else 2`,
exceptions silently replaced by the default 2. -/
def parse_travelers (so_nguoi : String) : Int :=
  if so_nguoi = "" then 2 else (python_int (python_strip so_nguoi)).getD 2

/-- Outcome of one controller invocation: the early error return for a
missing destination; the insufficient-budget early return; a Python
exception caught by the controller's outer `except Exception` handler; or
the invocation of the workflow executor with the constructed initial
parameters (destination, budget, days, travelers, interests). -/
inductive ControllerOutcome where
  | missingDestination : ControllerOutcome
  | budgetInsufficient : BudgetBreakdown → Int → ControllerOutcome
  | pythonError : String → ControllerOutcome
  | runWorkflow : String → Int → Int → Int → String → ControllerOutcome
deriving DecidableEq, Repr

/-- `app.tao_ke_hoach_du_lich(diem_di, diem_den, ngan_sach, so_ngay,
so_nguoi, so_thich)`, modelled up to the decision of whether
`run_travel_workflow` is invoked: reject a blank destination; default a blank
departure to the destination; parse the numeric fields with silent defaults;
compute the transport cost; run `validate_budget` (whose insufficient branch
returns early without invoking the workflow, and whose `ZeroDivisionError`
is caught by the outer `except Exception`); otherwise reach
`run_travel_workflow(destination=diem_den, budget, days, travelers,
interests)`. -/
def tao_ke_hoach_du_lich
    (diem_di diem_den ngan_sach so_ngay so_nguoi so_thich : String) :
    ControllerOutcome :=
  if python_strip diem_den = "" then .missingDestination
  else
    let dd := if python_strip diem_di = "" then diem_den else diem_di
    let budget := parse_budget ngan_sach
    let days := parse_days so_ngay
    let travelers := parse_travelers so_nguoi
    let transport := calculate_transport_cost_min dd diem_den travelers
    match validate_budget budget transport.2 days travelers with
    | .error e => .pythonError e
    | .ok (.insufficient b sh) => .budgetInsufficient b sh
    | .ok (.valid _) => .runWorkflow diem_den budget days travelers so_thich


/-! ## Theorems -/

theorem dumpsPairs_eq_map (l : List (String × Value)) :
    dumpsPairs l = l.map (fun kv => (kv.1, dumps kv.2)) := by
  induction l with
  | nil => rfl
  | cons kv kvs ih => simp [dumpsPairs, ih]

theorem mergeSort_keyLE_eq_of_perm {l₁ l₂ : List (String × String)}
    (hp : l₁.Perm l₂) (hnd : (l₁.map Prod.fst).Nodup) :
    l₁.mergeSort keyLE = l₂.mergeSort keyLE := by
  have hperm : (l₁.mergeSort keyLE).Perm (l₂.mergeSort keyLE) :=
    ((List.mergeSort_perm l₁ keyLE).trans hp).trans
      (List.mergeSort_perm l₂ keyLE).symm
  have htrans : ∀ a b c : String × String,
      keyLE a b → keyLE b c → keyLE a c := by
    intro a b c hab hbc
    simp only [keyLE, decide_eq_true_eq] at *
    exact le_trans hab hbc
  have htotal : ∀ a b : String × String, (keyLE a b || keyLE b a) = true := by
    intro a b
    simp only [keyLE, Bool.or_eq_true, decide_eq_true_eq]
    exact le_total a.1 b.1
  have hs₁ := List.sorted_mergeSort htrans htotal l₁
  have hs₂ := List.sorted_mergeSort htrans htotal l₂
  have hnd₁ : ((l₁.mergeSort keyLE).map Prod.fst).Nodup :=
    (hnd.perm ((List.mergeSort_perm l₁ keyLE).map Prod.fst).symm)
  have hnd₂ : ((l₂.mergeSort keyLE).map Prod.fst).Nodup :=
    hnd₁.perm (hperm.map Prod.fst)
  have hlt : ∀ l : List (String × String), l.Pairwise (fun a b => keyLE a b) →
      (l.map Prod.fst).Nodup → l.Pairwise (fun a b => a.1 < b.1) := by
    intro l hle hn
    have hne : l.Pairwise (fun a b : String × String => a.1 ≠ b.1) :=
      List.pairwise_map.mp hn
    have := hle.and hne
    exact this.imp (fun h => lt_of_le_of_ne (by
      have := h.1
      simpa [keyLE, decide_eq_true_eq] using this) h.2)
  have : IsAntisymm (String × String) (fun a b => a.1 < b.1) := by
    constructor
    intro a b hab hba
    exact absurd (lt_trans hab hba) (lt_irrefl _)
  exact List.eq_of_perm_of_sorted hperm
    (hlt _ hs₁ hnd₁) (hlt _ hs₂ hnd₂)

theorem dumps_obj_perm_invariant {p₁ p₂ : List (String × Value)}
    (hp : p₁.Perm p₂) (hnd : (p₁.map Prod.fst).Nodup) :
    dumps (.obj p₁) = dumps (.obj p₂) := by
  have h₁ : (dumpsPairs p₁).Perm (dumpsPairs p₂) := by
    rw [dumpsPairs_eq_map, dumpsPairs_eq_map]
    exact hp.map _
  have h₂ : ((dumpsPairs p₁).map Prod.fst).Nodup := by
    rw [dumpsPairs_eq_map, List.map_map]
    simpa [Function.comp] using hnd
  simp only [dumps]
  rw [mergeSort_keyLE_eq_of_perm h₁ h₂]

/-- C3: For every api_name, endpoint, and pair of parameter mappings that are
equal as maps but enumerate their keys in different orders (a permutation of
the key/value pairs, with distinct keys), `_generate_cache_key` produces the
identical cache key: the key derivation is invariant under re-ordering of the
parameter mapping. -/
theorem cache_key_invariant_under_param_reorder
    (h : String → String) (api_name endpoint : String)
    {p₁ p₂ : List (String × Value)}
    (hp : p₁.Perm p₂) (hnd : (p₁.map Prod.fst).Nodup) :
    generate_cache_key h api_name endpoint p₁ =
      generate_cache_key h api_name endpoint p₂ := by
  unfold generate_cache_key
  rw [dumps_obj_perm_invariant hp hnd]

/-- Witness for C3 at concrete inputs: the parameter maps
`{"query": "hotels in Hanoi", "radius": 5000}` enumerated in both orders. -/
theorem cache_key_invariant_under_param_reorder_witness :
    ([("query", Value.str "hotels in Hanoi"), ("radius", Value.int 5000)].Perm
      [("radius", Value.int 5000), ("query", Value.str "hotels in Hanoi")]) ∧
    generate_cache_key id "google_places" "textsearch/json"
      [("query", Value.str "hotels in Hanoi"), ("radius", Value.int 5000)] =
    generate_cache_key id "google_places" "textsearch/json"
      [("radius", Value.int 5000), ("query", Value.str "hotels in Hanoi")] :=
  have hperm : [("query", Value.str "hotels in Hanoi"),
      ("radius", Value.int 5000)].Perm
      [("radius", Value.int 5000), ("query", Value.str "hotels in Hanoi")] :=
    List.Perm.swap ("radius", Value.int 5000)
      ("query", Value.str "hotels in Hanoi") []
  ⟨hperm, cache_key_invariant_under_param_reorder id "google_places"
    "textsearch/json" hperm (by decide)⟩

/-- C2: `Set` immediately followed by `Get` of the same key at a time strictly
before the written entry's `expires_at` (= set-time + cache_hours·3600)
returns exactly the stored value; and a `Get` at or after the expiry of every
entry holding the key returns a miss. -/
theorem set_then_get_api_cache
    (store : List CacheEntry)
    (cache_key api_name endpoint params response_data : String)
    (t_set cache_hours t_get : Int)
    (hfresh : t_get < t_set + cache_hours * 3600) :
    ((get_api_cache
        (set_api_cache store cache_key api_name endpoint params response_data
          t_set cache_hours)
        cache_key t_get).1 = some response_data) ∧
    (∀ (store' : List CacheEntry) (t : Int),
      (∀ e ∈ store', e.cache_key = cache_key → e.expires_at ≤ t) →
      (get_api_cache store' cache_key t).1 = none) := by
  constructor
  · simp [get_api_cache, set_api_cache, List.find?, hfresh]
  · intro store' t hexp
    have hnone : store'.find?
        (fun e => e.cache_key == cache_key && t < e.expires_at) = none := by
      rw [List.find?_eq_none]
      intro e he
      simp only [Bool.and_eq_true, beq_iff_eq, decide_eq_true_eq, not_and]
      intro hk
      exact not_lt.mpr (hexp e he hk)
    simp [get_api_cache, hnone]

/-- Witness for C2 at concrete inputs: set at time 0 with a 24-hour TTL, get
at time 100; and a one-entry store whose entry expires exactly at the get
time. -/
theorem set_then_get_api_cache_witness :
    ((100 : Int) < 0 + 24 * 3600) ∧
    ((get_api_cache
        (set_api_cache [] "k1" "google_places" "textsearch/json" "p" "r1"
          0 24) "k1" 100).1 = some "r1") ∧
    ((get_api_cache
        [{ cache_key := "k1", api_name := "a", endpoint := "e", params := "p",
           response_data := "r2", created_at := 0, expires_at := 50,
           hit_count := 0 }] "k1" 50).1 = none) := by
  refine ⟨by decide, ?_, ?_⟩
  · exact (set_then_get_api_cache [] "k1" "google_places" "textsearch/json"
      "p" "r1" 0 24 100 (by decide)).1
  · exact (set_then_get_api_cache [] "k1" "google_places" "textsearch/json"
      "p" "r1" 0 24 100 (by decide)).2 _ 50 (by
        intro e he hk
        simp only [List.mem_singleton] at he
        subst he
        decide)

theorem filter_length_split {α : Type} (p : α → Bool) (l : List α) :
    (l.filter p).length + (l.filter (fun a => !(p a))).length = l.length := by
  induction l with
  | nil => rfl
  | cons a l ih =>
    by_cases h : p a <;> simp [List.filter, h] <;> omega

/-- C7 counterexample: an `api_cache` entry whose `expires_at` equals `now()`
at the moment of the call is NOT removed by `clear_expired_cache`, and the
returned count is 0, not 1 — the SQL predicate is the strict
`expires_at < now()`, so the claim's boundary case (`expires_at <= now()`,
"including an entry whose expires_at equals now()") fails. -/
theorem clear_expired_cache_boundary_counterexample :
    clear_expired_cache
      [{ cache_key := "k", api_name := "a", endpoint := "e", params := "p",
         response_data := "r", created_at := 0, expires_at := 5,
         hit_count := 0 }] [] 5 =
      (([{ cache_key := "k", api_name := "a", endpoint := "e", params := "p",
           response_data := "r", created_at := 0, expires_at := 5,
           hit_count := 0 }], []), (0, 0, 0)) ∧
    clear_expired_cache
      [{ cache_key := "k", api_name := "a", endpoint := "e", params := "p",
         response_data := "r", created_at := 0, expires_at := 5,
         hit_count := 0 }] [] 5 ≠ (([], []), (1, 0, 1)) := by
  constructor
  · rfl
  · decide

/-- C7 (amended): for every cache table state, `clear_expired_cache` removes
exactly the entries whose `expires_at < now()` — an entry whose `expires_at`
equals `now()` is retained — and returns the number of entries removed from
each table. -/
theorem clear_expired_cache_removes_strictly_expired
    (api : List CacheEntry) (web : List WebCacheEntry) (now : Int) :
    (∀ e : CacheEntry, e ∈ (clear_expired_cache api web now).1.1 ↔
       e ∈ api ∧ now ≤ e.expires_at) ∧
    (∀ e : WebCacheEntry, e ∈ (clear_expired_cache api web now).1.2 ↔
       e ∈ web ∧ now ≤ e.expires_at) ∧
    ((clear_expired_cache api web now).2.1 =
      ((api.filter (fun e => decide (e.expires_at < now))).length : Nat)) ∧
    ((clear_expired_cache api web now).2.2.1 =
      ((web.filter (fun e => decide (e.expires_at < now))).length : Nat)) := by
  refine ⟨?_, ?_, ?_, ?_⟩
  · intro e
    simp [clear_expired_cache, List.mem_filter, not_lt]
  · intro e
    simp [clear_expired_cache, List.mem_filter, not_lt]
  · have h := filter_length_split (fun e : CacheEntry => decide (e.expires_at < now)) api
    have hlen : (api.filter (fun e => !(decide (e.expires_at < now)))).length ≤ api.length :=
      List.length_filter_le _ _
    simp only [clear_expired_cache]
    omega
  · have h := filter_length_split (fun e : WebCacheEntry => decide (e.expires_at < now)) web
    have hlen : (web.filter (fun e => !(decide (e.expires_at < now)))).length ≤ web.length :=
      List.length_filter_le _ _
    simp only [clear_expired_cache]
    omega

/-- C10: On a cache hit, `get_api_cache` increments the `hit_count` of exactly
the looked-up entry by one (leaving its `response_data`, `created_at` and
`expires_at` unchanged — the record update touches only `hit_count`) and
leaves every other entry of the table unchanged; on a miss the table is left
entirely unchanged. Requires the `PRIMARY KEY` invariant: cache keys are
duplicate-free. -/
theorem get_api_cache_frame (store : List CacheEntry) (k : String) (now : Int)
    (hnd : (store.map CacheEntry.cache_key).Nodup) :
    ((get_api_cache store k now).1 = none →
      (get_api_cache store k now).2 = store) ∧
    (∀ e : CacheEntry,
      store.find? (fun e => e.cache_key == k && now < e.expires_at) = some e →
      ∃ l₁ l₂, store = l₁ ++ e :: l₂ ∧
        (get_api_cache store k now).2 =
          l₁ ++ { e with hit_count := e.hit_count + 1 } :: l₂ ∧
        (get_api_cache store k now).1 = some e.response_data) := by
  constructor
  · intro hmiss
    unfold get_api_cache at *
    cases hfind : store.find?
        (fun e => e.cache_key == k && now < e.expires_at) with
    | none => simp [hfind]
    | some e => rw [hfind] at hmiss; simp at hmiss
  · intro e hfind
    have hpred := List.find?_some hfind
    have hmem := List.mem_of_find?_eq_some hfind
    have hkey : e.cache_key = k := by
      have := (Bool.and_eq_true _ _).mp hpred
      exact beq_iff_eq.mp this.1
    obtain ⟨l₁, l₂, hdecomp⟩ := List.append_of_mem hmem
    subst hdecomp
    have hkeys := hnd
    rw [List.map_append, List.map_cons] at hkeys
    have hk₁ : ∀ e' ∈ l₁, e'.cache_key ≠ k := by
      intro e' he' heq
      have : e.cache_key ∈ l₁.map CacheEntry.cache_key := by
        rw [hkey, ← heq] at *
        exact List.mem_map_of_mem _ he'
      exact (List.disjoint_of_nodup_append hkeys) this (by simp [hkey, heq])
    have hk₂ : ∀ e' ∈ l₂, e'.cache_key ≠ k := by
      intro e' he' heq
      have hnd₂ := (List.nodup_append.mp hkeys).2.1
      rw [List.nodup_cons] at hnd₂
      exact hnd₂.1 (by rw [hkey, ← heq]; exact List.mem_map_of_mem _ he')
    have hmap : ∀ l : List CacheEntry, (∀ e' ∈ l, e'.cache_key ≠ k) →
        l.map (fun e' => if e'.cache_key == k
          then { e' with hit_count := e'.hit_count + 1 } else e') = l := by
      intro l hl
      induction l with
      | nil => rfl
      | cons a l ih =>
        simp only [List.map_cons]
        rw [if_neg (by simp [hl a (by simp)]),
          ih (fun e' he' => hl e' (by simp [he']))]
    refine ⟨l₁, l₂, rfl, ?_, ?_⟩
    · unfold get_api_cache
      rw [hfind]
      simp only [List.map_append, List.map_cons]
      rw [hmap l₁ hk₁, hmap l₂ hk₂, if_pos (by simp [hkey])]
    · unfold get_api_cache
      rw [hfind]

/-- Witness for C10 at a concrete two-entry table: the get bumps only the
matched entry's hit_count. -/
theorem get_api_cache_frame_witness :
    (([{ cache_key := "k1", api_name := "a", endpoint := "e", params := "p",
         response_data := "r1", created_at := 0, expires_at := 100,
         hit_count := 3 },
       { cache_key := "k2", api_name := "a", endpoint := "e", params := "p",
         response_data := "r2", created_at := 0, expires_at := 100,
         hit_count := 0 }].map CacheEntry.cache_key).Nodup) ∧
    (∃ l₁ l₂,
      [{ cache_key := "k1", api_name := "a", endpoint := "e", params := "p",
         response_data := "r1", created_at := 0, expires_at := 100,
         hit_count := 3 },
       { cache_key := "k2", api_name := "a", endpoint := "e", params := "p",
         response_data := "r2", created_at := 0, expires_at := 100,
         hit_count := 0 }] = l₁ ++
        ({ cache_key := "k1", api_name := "a", endpoint := "e", params := "p",
           response_data := "r1", created_at := 0, expires_at := 100,
           hit_count := 3 } : CacheEntry) :: l₂ ∧
      (get_api_cache
        [{ cache_key := "k1", api_name := "a", endpoint := "e", params := "p",
           response_data := "r1", created_at := 0, expires_at := 100,
           hit_count := 3 },
         { cache_key := "k2", api_name := "a", endpoint := "e", params := "p",
           response_data := "r2", created_at := 0, expires_at := 100,
           hit_count := 0 }] "k1" 10).2 =
        l₁ ++
          ({ cache_key := "k1", api_name := "a", endpoint := "e",
             params := "p", response_data := "r1", created_at := 0,
             expires_at := 100, hit_count := 3 + 1 } : CacheEntry) :: l₂ ∧
      (get_api_cache
        [{ cache_key := "k1", api_name := "a", endpoint := "e", params := "p",
           response_data := "r1", created_at := 0, expires_at := 100,
           hit_count := 3 },
         { cache_key := "k2", api_name := "a", endpoint := "e", params := "p",
           response_data := "r2", created_at := 0, expires_at := 100,
           hit_count := 0 }] "k1" 10).1 = some "r1") :=
  ⟨by decide, (get_api_cache_frame _ "k1" 10 (by decide)).2 _ (by decide)⟩

theorem make_request_succeeds_after_failures
    (attempts : Nat → NetResult) (h : String → String)
    (store : List WEntry) (url : String) (now hours : Int) (text : String) :
    ∀ (d r : Nat), r + d ≤ web_max_retries →
    get_cached_content store (h url) now = none →
    (∀ i, r ≤ i → i < r + d → ∃ m, attempts i = .requestError m) →
    attempts (r + d) = .ok text →
    make_request attempts h store url now hours r =
      (some text, cache_content store (h url) url text now hours) := by
  intro d
  induction d with
  | zero =>
    intro r hle hmiss hfail hok
    rw [make_request]
    rw [Nat.add_zero] at hok
    simp only [hmiss, hok]
  | succ d ih =>
    intro r hle hmiss hfail hok
    rw [make_request]
    obtain ⟨m, hm⟩ := hfail r le_rfl (by omega)
    have hrlt : r < web_max_retries := by
      simp only [web_max_retries] at *
      omega
    simp only [hmiss, hm, dif_pos hrlt]
    exact ih (r + 1) (by omega) hmiss
      (fun i h1 h2 => hfail i (by omega) (by omega))
      (by rw [show r + 1 + d = r + (d + 1) by omega]; exact hok)

theorem make_request_exhaustion
    (attempts : Nat → NetResult) (h : String → String)
    (store : List WEntry) (url : String) (now hours : Int) :
    ∀ (d r : Nat), r + d = web_max_retries →
    get_cached_content store (h url) now = none →
    (∀ i, r ≤ i → i ≤ web_max_retries → ∃ m, attempts i = .requestError m) →
    make_request attempts h store url now hours r = (none, store) := by
  intro d
  induction d with
  | zero =>
    intro r hr hmiss hfail
    rw [make_request]
    obtain ⟨m, hm⟩ := hfail r le_rfl (by omega)
    simp only [hmiss, hm, dif_neg (by omega : ¬ r < web_max_retries)]
  | succ d ih =>
    intro r hr hmiss hfail
    rw [make_request]
    obtain ⟨m, hm⟩ := hfail r le_rfl (by omega)
    simp only [hmiss, hm, dif_pos (by omega : r < web_max_retries)]
    exact ih (r + 1) (by omega)
      hmiss (fun i h1 h2 => hfail i (by omega) h2)

/-- C5 counterexample: the API-collector adapter does not retry. With a
transient `RequestException` on the first attempt and a successful response
available on the second attempt, `_make_api_request` still returns `None`
(it never performs a second attempt), refuting "a transient network failure
of the real remote call is retried ... up to 3 attempts" for every
collaborator adapter operation. -/
theorem adapter_retry_counterexample :
    make_api_request false false [] (some "KEY")
      (fun n => if n == 0 then .requestError "Connection timeout"
        else .ok "recovered")
      id "google_places" "textsearch/json" [] 0 24 = .ok (none, []) := rfl

/-- C5 (amended): the retry policy differs per adapter. (1) The API-collector
adapter performs exactly one attempt: its result depends only on `attempts 0`;
(2) on a transient failure of that single attempt it returns `None` to its
caller rather than raising. (3) The web-scraper adapter retries transient
failures (with exponential backoff sleeps) up to `max_retries = 3` retries:
a success on attempt `k ≤ 3` after `k` failures returns the fetched text;
(4) after exhausting all 4 attempts it returns `None` rather than raising. -/
theorem adapter_retry_behavior :
    (∀ (readFail writeFail : Bool) (store : List ACEntry)
      (api_key : Option String) (a₁ a₂ : Nat → NetResult)
      (h : String → String) (api_name endpoint : String)
      (params : List (String × Value)) (now hours : Int),
      a₁ 0 = a₂ 0 →
      make_api_request readFail writeFail store api_key a₁ h api_name
        endpoint params now hours =
      make_api_request readFail writeFail store api_key a₂ h api_name
        endpoint params now hours) ∧
    (∀ (writeFail : Bool) (store : List ACEntry) (key : String)
      (attempts : Nat → NetResult) (h : String → String)
      (api_name endpoint : String) (params : List (String × Value))
      (now hours : Int) (msg : String),
      get_cached_response false store
        (generate_cache_key h api_name endpoint params) now = .ok none →
      attempts 0 = .requestError msg →
      make_api_request false writeFail store (some key) attempts h api_name
        endpoint params now hours = .ok (none, store)) ∧
    (∀ (attempts : Nat → NetResult) (h : String → String)
      (store : List WEntry) (url : String) (now hours : Int)
      (text : String) (k : Nat),
      k ≤ web_max_retries →
      get_cached_content store (h url) now = none →
      (∀ i, i < k → ∃ m, attempts i = .requestError m) →
      attempts k = .ok text →
      make_request attempts h store url now hours 0 =
        (some text, cache_content store (h url) url text now hours)) ∧
    (∀ (attempts : Nat → NetResult) (h : String → String)
      (store : List WEntry) (url : String) (now hours : Int),
      get_cached_content store (h url) now = none →
      (∀ i, i ≤ web_max_retries → ∃ m, attempts i = .requestError m) →
      make_request attempts h store url now hours 0 = (none, store)) := by
  refine ⟨?_, ?_, ?_, ?_⟩
  · intro readFail writeFail store api_key a₁ a₂ h an ep p now hours heq
    unfold make_api_request
    rw [heq]
  · intro writeFail store key attempts h an ep p now hours msg hmiss hfail
    simp only [make_api_request, hmiss, hfail]
  · intro attempts h store url now hours text k hk hmiss hfail hok
    exact make_request_succeeds_after_failures attempts h store url now hours
      text k 0 (by omega) hmiss (fun i h1 h2 => hfail i (by omega))
      (by rw [Nat.zero_add]; exact hok)
  · intro attempts h store url now hours hmiss hfail
    exact make_request_exhaustion attempts h store url now hours
      web_max_retries 0 (by omega) hmiss (fun i h1 h2 => hfail i h2)

/-- Witness for the amended C5 at concrete inputs: a single-failure API
collector run, a web-scraper run succeeding on the third attempt, and a
web-scraper run whose four attempts all fail. -/
theorem adapter_retry_behavior_witness :
    (make_api_request false false [] (some "K")
      (fun _ => .requestError "timeout") id "openweather" "weather" [] 0 6 =
      .ok (none, [])) ∧
    (make_request (fun n => if n < 2 then .requestError "timeout"
        else .ok "page") id [] "https://vietnam.travel/" 0 24 0 =
      (some "page",
        cache_content [] (id "https://vietnam.travel/")
          "https://vietnam.travel/" "page" 0 24)) ∧
    (make_request (fun _ => .requestError "timeout") id []
      "https://vietnam.travel/" 0 24 0 = (none, [])) :=
  ⟨adapter_retry_behavior.2.1 false [] "K" (fun _ => .requestError "timeout")
      id "openweather" "weather" [] 0 6 "timeout" rfl rfl,
   adapter_retry_behavior.2.2.1 _ id [] "https://vietnam.travel/" 0 24
      "page" 2 (by decide) rfl
      (fun i hi => ⟨"timeout", by
        have : i < 2 := hi
        simp [this]⟩) rfl,
   adapter_retry_behavior.2.2.2 _ id [] "https://vietnam.travel/" 0 24
      rfl (fun i hi => ⟨"timeout", rfl⟩)⟩

/-- C6 counterexample: a storage I/O failure during `_get_cached_response`
propagates as an exception (it is not converted to a miss), and a storage I/O
failure during `_cache_response` after a successful fetch makes
`_make_api_request` raise, discarding the freshly fetched result, because the
surrounding `try` catches only `requests.exceptions.RequestException`. -/
theorem cache_io_failure_counterexample :
    (get_cached_response true [] "k" 0 = .error "sqlite I/O error") ∧
    (make_api_request false true [] (some "KEY") (fun _ => .ok "data") id
      "openweather" "weather" [] 0 6 = .error "sqlite I/O error") :=
  ⟨rfl, rfl⟩

/-- C6 (amended): storage I/O failures in the API collector's cache are NOT
contained: a failing cache read raises out of the adapter operation (the
caller gets an exception, not a miss), and a failing cache write after a
successful fetch likewise raises, losing the fetched result — only the
stage-level handler above the adapter eventually catches these. -/
theorem cache_io_failure_propagates :
    (∀ (store : List ACEntry) (key : String) (now : Int),
      get_cached_response true store key now = .error "sqlite I/O error") ∧
    (∀ (store : List ACEntry) (key : String) (attempts : Nat → NetResult)
      (h : String → String) (api_name endpoint : String)
      (params : List (String × Value)) (now hours : Int) (data : String),
      get_cached_response false store
        (generate_cache_key h api_name endpoint params) now = .ok none →
      attempts 0 = .ok data →
      make_api_request false true store (some key) attempts h api_name
        endpoint params now hours = .error "sqlite I/O error") := by
  constructor
  · intro store key now
    rfl
  · intro store key attempts h an ep p now hours data hmiss hok
    simp only [make_api_request, hmiss, hok]
    rfl

/-- Witness for the amended C6 at concrete inputs. -/
theorem cache_io_failure_propagates_witness :
    (get_cached_response true
      [{ cache_key := "k", api_name := "a", endpoint := "e",
         response_data := "r", created_at := 0, expires_at := 100 }]
      "k" 0 = .error "sqlite I/O error") ∧
    (make_api_request false true [] (some "KEY") (fun _ => .ok "data") id
      "tavily" "search" [] 0 24 = .error "sqlite I/O error") :=
  ⟨cache_io_failure_propagates.1 _ "k" 0,
   cache_io_failure_propagates.2 [] "KEY" (fun _ => .ok "data") id
     "tavily" "search" [] 0 24 "data" rfl rfl⟩

theorem apply_node_ok_eq (n : String) (hn : n ∈ workflow_stages) (v : Value)
    (s : TravelState) :
    (apply_node n (.ok v) s).steps_completed = s.steps_completed ++ [n] ∧
    (apply_node n (.ok v) s).errors = s.errors := by
  simp only [workflow_stages, List.mem_cons, List.not_mem_nil, or_false] at hn
  rcases hn with rfl | rfl | rfl | rfl | rfl | rfl | rfl | rfl | rfl | rfl <;>
    exact ⟨rfl, rfl⟩

theorem apply_node_error_eq (n : String) (hn : n ∈ workflow_stages)
    (e : String) (s : TravelState) :
    (apply_node n (.error e) s).steps_completed = s.steps_completed ∧
    (apply_node n (.error e) s).errors =
      s.errors ++ [stage_error_tag n ++ e] := by
  simp only [workflow_stages, List.mem_cons, List.not_mem_nil, or_false] at hn
  rcases hn with rfl | rfl | rfl | rfl | rfl | rfl | rfl | rfl | rfl | rfl <;>
    exact ⟨rfl, rfl⟩

/-- C9: Every stage function preserves all existing elements and their order
in `steps_completed` and `errors`: on success it appends exactly its own name
to `steps_completed` and leaves `errors` untouched; on failure it appends
exactly one tagged error entry to `errors` and leaves `steps_completed`
untouched; it never removes, replaces, or reorders entries written by earlier
stages. -/
theorem stage_functions_append_only (n : String) (hn : n ∈ workflow_stages)
    (b : Except String Value) (s : TravelState) :
    (∀ v, b = .ok v →
      (apply_node n b s).steps_completed = s.steps_completed ++ [n] ∧
      (apply_node n b s).errors = s.errors) ∧
    (∀ e, b = .error e →
      (apply_node n b s).steps_completed = s.steps_completed ∧
      (apply_node n b s).errors =
        s.errors ++ [stage_error_tag n ++ e]) :=
  ⟨fun v hv => hv ▸ apply_node_ok_eq n hn v s,
   fun e he => he ▸ apply_node_error_eq n hn e s⟩

/-- Witness for C9: the planner stage at a concrete state, in both the
success and the failure case. -/
theorem stage_functions_append_only_witness :
    ("planner" ∈ workflow_stages) ∧
    ((apply_node "planner" (.ok (.obj [])) empty_travel_state).steps_completed
        = empty_travel_state.steps_completed ++ ["planner"] ∧
      (apply_node "planner" (.ok (.obj [])) empty_travel_state).errors =
        empty_travel_state.errors) ∧
    ((apply_node "planner" (.error "division by zero")
        empty_travel_state).steps_completed =
        empty_travel_state.steps_completed ∧
      (apply_node "planner" (.error "division by zero")
        empty_travel_state).errors = empty_travel_state.errors ++
        [stage_error_tag "planner" ++ "division by zero"]) :=
  ⟨by decide,
   (stage_functions_append_only "planner" (by decide) (.ok (.obj []))
      empty_travel_state).1 (.obj []) rfl,
   (stage_functions_append_only "planner" (by decide)
      (.error "division by zero") empty_travel_state).2
      "division by zero" rfl⟩

theorem valid_schedule_nodup {sched : List String}
    (h : ValidSchedule sched) : sched.Nodup := by
  induction h with
  | nil => exact List.nodup_nil
  | snoc h hmem hnotin hup ih =>
    rw [List.nodup_append]
    refine ⟨ih, List.nodup_singleton _, ?_⟩
    intro a ha hb
    rw [List.mem_singleton] at hb
    subst hb
    exact hnotin ha

theorem valid_schedule_mem_stages {sched : List String}
    (h : ValidSchedule sched) : ∀ x ∈ sched, x ∈ workflow_stages := by
  induction h with
  | nil => intro x hx; exact absurd hx (List.not_mem_nil x)
  | snoc h hmem hnotin hup ih =>
    intro x hx
    rcases List.mem_append.mp hx with hx | hx
    · exact ih x hx
    · rw [List.mem_singleton] at hx
      subst hx
      exact hmem

theorem valid_schedule_upstream_before {sched : List String}
    (h : ValidSchedule sched) :
    ∀ l₁ n l₂, sched = l₁ ++ n :: l₂ → ∀ m ∈ upstream n, m ∈ l₁ := by
  induction h with
  | nil =>
    intro l₁ n l₂ hl
    exact absurd hl (by cases l₁ <;> simp)
  | @snoc sched k h hmem hnotin hup ih =>
    intro l₁ n l₂ heq
    rcases List.eq_nil_or_concat l₂ with rfl | ⟨l₂', a, rfl⟩
    · obtain ⟨h1, h2⟩ := List.append_inj' heq rfl
      rw [List.cons_eq_cons] at h2
      obtain ⟨rfl, -⟩ := h2
      intro m hm
      rw [← h1]
      exact hup m hm
    · rw [List.concat_eq_append] at heq
      rw [show l₁ ++ n :: (l₂' ++ [a]) = (l₁ ++ n :: l₂') ++ [a] by simp] at heq
      obtain ⟨h1, h2⟩ := List.append_inj' heq rfl
      exact ih l₁ n l₂' h1

/-- C4: In every run (valid complete schedule), the convergent `planner` stage
is dispatched exactly once, and wherever it occurs in the dispatch order, all
four of its parallel upstream stages (`recommendation`, `sentiment_analyzer`,
`similarity_engine`, `price_predictor`) have already executed — i.e. reached
a terminal per-stage state — before it; it never starts after fewer than all
four have terminated. -/
theorem planner_dispatch_after_all_upstream (sched : List String)
    (hv : ValidSchedule sched) (hc : CompleteSchedule sched) :
    sched.count "planner" = 1 ∧
    ∀ l₁ l₂, sched = l₁ ++ "planner" :: l₂ →
      "recommendation" ∈ l₁ ∧ "sentiment_analyzer" ∈ l₁ ∧
      "similarity_engine" ∈ l₁ ∧ "price_predictor" ∈ l₁ := by
  constructor
  · exact List.count_eq_one_of_mem (valid_schedule_nodup hv)
      (hc "planner" (by decide))
  · intro l₁ l₂ hdec
    have hup := valid_schedule_upstream_before hv l₁ "planner" l₂ hdec
    exact ⟨hup _ (by decide), hup _ (by decide), hup _ (by decide),
      hup _ (by decide)⟩

/-- The registration order of the ten nodes is itself a valid dispatch
schedule of the graph. -/
theorem workflow_stages_valid : ValidSchedule workflow_stages := by
  have h0 : ValidSchedule ([] : List String) := .nil
  have h1 := @ValidSchedule.snoc _ "api_collector" h0
    (by decide) (by decide) (by decide)
  have h2 := @ValidSchedule.snoc _ "web_scraper" h1
    (by decide) (by decide) (by decide)
  have h3 := @ValidSchedule.snoc _ "data_processor" h2
    (by decide) (by decide) (by decide)
  have h4 := @ValidSchedule.snoc _ "recommendation" h3
    (by decide) (by decide) (by decide)
  have h5 := @ValidSchedule.snoc _ "sentiment_analyzer" h4
    (by decide) (by decide) (by decide)
  have h6 := @ValidSchedule.snoc _ "similarity_engine" h5
    (by decide) (by decide) (by decide)
  have h7 := @ValidSchedule.snoc _ "price_predictor" h6
    (by decide) (by decide) (by decide)
  have h8 := @ValidSchedule.snoc _ "planner" h7
    (by decide) (by decide) (by decide)
  have h9 := @ValidSchedule.snoc _ "researcher" h8
    (by decide) (by decide) (by decide)
  have h10 := @ValidSchedule.snoc _ "analytics_engine" h9
    (by decide) (by decide) (by decide)
  simpa [workflow_stages] using h10

/-- Witness for C4: the registration-order schedule is valid and complete,
and the theorem applies to it. -/
theorem planner_dispatch_after_all_upstream_witness :
    workflow_stages.count "planner" = 1 ∧
    ∀ l₁ l₂, workflow_stages = l₁ ++ "planner" :: l₂ →
      "recommendation" ∈ l₁ ∧ "sentiment_analyzer" ∈ l₁ ∧
      "similarity_engine" ∈ l₁ ∧ "price_predictor" ∈ l₁ :=
  planner_dispatch_after_all_upstream workflow_stages workflow_stages_valid
    (fun _ hn => hn)

theorem apply_node_extends (name : String) (b : Except String Value)
    (s : TravelState) :
    ∃ t u, (apply_node name b s).steps_completed = s.steps_completed ++ t ∧
      (apply_node name b s).errors = s.errors ++ u := by
  unfold apply_node
  split <;> cases b <;>
    first
      | exact ⟨_, [], rfl, by
          simp [api_collector_node, web_scraper_node, data_processor_node,
            recommendation_node, sentiment_analyzer_node,
            similarity_engine_node, price_predictor_node, planner_node,
            researcher_node, analytics_engine_node, mark_step]⟩
      | exact ⟨[], _, by
          simp [api_collector_node, web_scraper_node, data_processor_node,
            recommendation_node, sentiment_analyzer_node,
            similarity_engine_node, price_predictor_node, planner_node,
            researcher_node, analytics_engine_node, append_error], rfl⟩
      | exact ⟨[], [], by simp, by simp⟩

theorem exec_schedule_extends (bodies : String → Except String Value)
    (sched : List String) (s : TravelState) :
    ∃ t u,
      (exec_schedule bodies sched s).steps_completed =
        s.steps_completed ++ t ∧
      (exec_schedule bodies sched s).errors = s.errors ++ u := by
  induction sched generalizing s with
  | nil => exact ⟨[], [], by simp [exec_schedule], by simp [exec_schedule]⟩
  | cons n sched ih =>
    obtain ⟨t1, u1, h1, h2⟩ := apply_node_extends n (bodies n) s
    obtain ⟨t2, u2, h3, h4⟩ := ih (apply_node n (bodies n) s)
    refine ⟨t1 ++ t2, u1 ++ u2, ?_, ?_⟩
    · show (exec_schedule bodies sched (apply_node n (bodies n) s)).steps_completed = _
      rw [h3, h1, List.append_assoc]
    · show (exec_schedule bodies sched (apply_node n (bodies n) s)).errors = _
      rw [h4, h2, List.append_assoc]

theorem exec_schedule_split (bodies : String → Except String Value)
    (l₁ l₂ : List String) (n : String) (s : TravelState) :
    exec_schedule bodies (l₁ ++ n :: l₂) s =
      exec_schedule bodies l₂
        (apply_node n (bodies n) (exec_schedule bodies l₁ s)) := by
  simp [exec_schedule, List.foldl_append]

/-- C1: For every run (valid complete schedule of the graph) in which exactly
one non-sink stage's body raises while every other stage's body succeeds:
the error tagged with the failing stage's name is appended to the state's
`errors`; every other stage — siblings and all downstream stages — still
executes and marks its step; the sink stage `analytics_engine` is executed;
and the run finishes `Completed`, not `Failed`, with the injected error
present in `errors`. -/
theorem error_containment (bodies : String → Except String Value)
    (sched : List String) (f msg : String) (s₀ : TravelState)
    (hv : ValidSchedule sched) (hc : CompleteSchedule sched)
    (hf : f ∈ workflow_stages) (hfsink : f ≠ sink_stage)
    (hbody : bodies f = .error msg)
    (hothers : ∀ n, n ≠ f → ∃ v, bodies n = .ok v) :
    (stage_error_tag f ++ msg) ∈ (exec_schedule bodies sched s₀).errors ∧
    sink_stage ∈ (exec_schedule bodies sched s₀).steps_completed ∧
    (∀ n ∈ workflow_stages, n ≠ f →
      n ∈ (exec_schedule bodies sched s₀).steps_completed) ∧
    run_status sched = .Completed := by
  have hmarked : ∀ n ∈ workflow_stages, n ≠ f →
      n ∈ (exec_schedule bodies sched s₀).steps_completed := by
    intro n hn hne
    obtain ⟨l₁, l₂, hdec⟩ := List.append_of_mem (hc n hn)
    subst hdec
    rw [exec_schedule_split]
    obtain ⟨v, hv'⟩ := hothers n hne
    obtain ⟨t, u, hsteps, herrs⟩ := exec_schedule_extends bodies l₂
      (apply_node n (bodies n) (exec_schedule bodies l₁ s₀))
    rw [hsteps, hv',
      (apply_node_ok_eq n hn v (exec_schedule bodies l₁ s₀)).1]
    simp
  refine ⟨?_, ?_, hmarked, ?_⟩
  · obtain ⟨l₁, l₂, hdec⟩ := List.append_of_mem (hc f hf)
    subst hdec
    rw [exec_schedule_split]
    obtain ⟨t, u, hsteps, herrs⟩ := exec_schedule_extends bodies l₂
      (apply_node f (bodies f) (exec_schedule bodies l₁ s₀))
    rw [herrs, hbody,
      (apply_node_error_eq f hf msg (exec_schedule bodies l₁ s₀)).2]
    simp
  · exact hmarked sink_stage (by decide) (fun hcontra => hfsink hcontra.symm)
  · unfold run_status
    rw [if_pos]
    rw [List.all_eq_true]
    intro x hx
    exact List.elem_eq_true_of_mem (valid_schedule_mem_stages hv x hx)

/-- Witness for C1 at a concrete run: the registration-order schedule with
the `recommendation` stage raising `"boom"` and every other stage
succeeding. -/
theorem error_containment_witness :
    (("Recommendation error: " ++ "boom") ∈
      (exec_schedule
        (fun n => if n = "recommendation" then .error "boom"
          else .ok (.obj []))
        workflow_stages empty_travel_state).errors) ∧
    (sink_stage ∈
      (exec_schedule
        (fun n => if n = "recommendation" then .error "boom"
          else .ok (.obj []))
        workflow_stages empty_travel_state).steps_completed) ∧
    (∀ n ∈ workflow_stages, n ≠ "recommendation" →
      n ∈ (exec_schedule
        (fun n => if n = "recommendation" then .error "boom"
          else .ok (.obj []))
        workflow_stages empty_travel_state).steps_completed) ∧
    run_status workflow_stages = .Completed :=
  error_containment
    (fun n => if n = "recommendation" then .error "boom" else .ok (.obj []))
    workflow_stages "recommendation" "boom" empty_travel_state
    workflow_stages_valid (fun _ hn => hn) (by decide) (by decide)
    (by simp)
    (fun n hn => ⟨.obj [], by simp [hn]⟩)

/-- C8 counterexample: with a present destination and traveler count `"0"` —
a numeric field that parses to a number NOT greater than zero — the
controller does not return a structural error and does not stop: it reaches
the workflow invocation with `travelers = 0`, refuting "if ... a numeric
field (budget, day count, traveler count) is not a number greater than zero,
the controller returns immediately with a structural error and the workflow
executor is not invoked". -/
theorem run_controller_positivity_counterexample :
    tao_ke_hoach_du_lich "Hà Nội" "Hà Nội" "10000000" "3" "0" "" =
      .runWorkflow "Hà Nội" 10000000 3 0 "" := by decide

/-- C8 (amended): the controller's early returns are narrower than claimed.
(1) A missing/blank destination returns immediately with the structural
error and the workflow is not invoked. (2) A numeric field that fails to
parse is NOT rejected: it is silently replaced by its default (shown here
for the traveler count, default 2 — the run proceeds exactly as if "2" had
been entered). (3) No greater-than-zero check is performed: whenever the
budget validation succeeds on the parsed values — whatever they are — the
controller invokes the workflow with them. -/
theorem run_controller_gate
    (diem_di diem_den ngan_sach so_ngay so_nguoi so_thich : String) :
    (python_strip diem_den = "" →
      tao_ke_hoach_du_lich diem_di diem_den ngan_sach so_ngay so_nguoi
        so_thich = .missingDestination) ∧
    (so_nguoi ≠ "" → python_int (python_strip so_nguoi) = none →
      tao_ke_hoach_du_lich diem_di diem_den ngan_sach so_ngay so_nguoi
        so_thich =
      tao_ke_hoach_du_lich diem_di diem_den ngan_sach so_ngay "2"
        so_thich) ∧
    (∀ bd, python_strip diem_den ≠ "" →
      validate_budget (parse_budget ngan_sach)
        (calculate_transport_cost_min
          (if python_strip diem_di = "" then diem_den else diem_di)
          diem_den (parse_travelers so_nguoi)).2
        (parse_days so_ngay) (parse_travelers so_nguoi) = .ok (.valid bd) →
      tao_ke_hoach_du_lich diem_di diem_den ngan_sach so_ngay so_nguoi
        so_thich =
      .runWorkflow diem_den (parse_budget ngan_sach) (parse_days so_ngay)
        (parse_travelers so_nguoi) so_thich) := by
  refine ⟨?_, ?_, ?_⟩
  · intro hd
    simp [tao_ke_hoach_du_lich, hd]
  · intro hne hnone
    have htrav : parse_travelers so_nguoi = 2 := by
      simp [parse_travelers, hne, hnone]
    have h2 : parse_travelers "2" = 2 := by decide
    simp only [tao_ke_hoach_du_lich, htrav, h2]
  · intro bd hd hval
    simp only [tao_ke_hoach_du_lich, if_neg hd, hval]

/-- Witness for the amended C8 at concrete inputs: a blank destination; an
unparseable traveler count behaving as its default; and a passing budget
validation reaching the workflow call. -/
theorem run_controller_gate_witness :
    (tao_ke_hoach_du_lich "Đà Nẵng" "  " "" "" "" "" =
      .missingDestination) ∧
    (tao_ke_hoach_du_lich "Hà Nội" "Hà Nội" "" "" "xyz" "" =
      tao_ke_hoach_du_lich "Hà Nội" "Hà Nội" "" "" "2" "") ∧
    (tao_ke_hoach_du_lich "Hà Nội" "Hà Nội" "" "" "2" "" =
      .runWorkflow "Hà Nội" 10000000 3 2 "") :=
  ⟨(run_controller_gate "Đà Nẵng" "  " "" "" "" "").1 (by decide),
   (run_controller_gate "Hà Nội" "Hà Nội" "" "" "xyz" "").2.1
     (by decide) (by decide),
   (run_controller_gate "Hà Nội" "Hà Nội" "" "" "2" "").2.2
     { transport := 56000, remaining := 9944000, per_day := 3314666 }
     (by decide) (by rfl)⟩
